import Mathlib

/-!
Verification development for the ICL ledger application (`src/app.py`).

The interest-accrual engine and its satellite functions are embedded shallowly:

* `datetime.date` values become the `Date` structure below; Python date
  comparison and subtraction (`(a - b).days`) are modelled through a proleptic
  Gregorian ordinal (`Date.toOrdinal`), which agrees with CPython's
  `date.toordinal` up to a constant offset, so comparisons and differences
  coincide with the source for all valid dates.
* `Decimal` money amounts become exact rationals (`ℚ`).  The source sets a
  28-significant-digit context; all claim-relevant identities are independent
  of that rounding, and the concrete scenarios below are evaluated exactly.
* Python dict rows become the `Entry` structure, with `Option` fields for keys
  that some row kinds omit.
* a function that can raise is embedded with an `Except String` result.
-/

namespace ICL

set_option maxRecDepth 16000

/-- A calendar date, `datetime.date(year, month, day)`.  Fields are integers;
the source only ever constructs valid dates on the inputs exercised here. -/
structure Date where
  year : Int
  month : Int
  day : Int
  deriving DecidableEq, Repr

/-- `is_leap(year)` from `app.py` line 224: standard Gregorian rule. -/
def is_leap (year : Int) : Bool :=
  year % 4 == 0 && (year % 100 != 0 || year % 400 == 0)

/-- Length of a month in the Gregorian calendar (used by the day-stepping
helpers that model `timedelta` arithmetic). -/
def daysInMonth (year month : Int) : Int :=
  if month == 1 then 31
  else if month == 2 then (if is_leap year then 29 else 28)
  else if month == 3 then 31
  else if month == 4 then 30
  else if month == 5 then 31
  else if month == 6 then 30
  else if month == 7 then 31
  else if month == 8 then 31
  else if month == 9 then 30
  else if month == 10 then 31
  else if month == 11 then 30
  else 31

/-- Days contributed by the whole years before `year` (proleptic Gregorian). -/
def daysBeforeYear (year : Int) : Int :=
  365 * (year - 1) + (year - 1) / 4 - (year - 1) / 100 + (year - 1) / 400

/-- Days contributed by the whole months of `year` before `month`. -/
def daysBeforeMonth (year month : Int) : Int :=
  let base :=
    if month == 1 then 0
    else if month == 2 then 31
    else if month == 3 then 59
    else if month == 4 then 90
    else if month == 5 then 120
    else if month == 6 then 151
    else if month == 7 then 181
    else if month == 8 then 212
    else if month == 9 then 243
    else if month == 10 then 273
    else if month == 11 then 304
    else 334
  if month > 2 && is_leap year then base + 1 else base

/-- Gregorian ordinal of a date: the mirror of CPython's `date.toordinal`.
Date comparison and `(a - b).days` in the source are modelled through it. -/
def Date.toOrdinal (d : Date) : Int :=
  daysBeforeYear d.year + daysBeforeMonth d.year d.month + d.day

/-- `a <= b` on dates (Python's date comparison, via the ordinal). -/
def dateLE (a b : Date) : Bool := a.toOrdinal ≤ b.toOrdinal

/-- `a < b` on dates. -/
def dateLT (a b : Date) : Bool := a.toOrdinal < b.toOrdinal

/-- `(a - b).days` in the source. -/
def daysBetween (a b : Date) : Int := a.toOrdinal - b.toOrdinal

/-- `d + timedelta(days=1)`. -/
def addOneDay (d : Date) : Date :=
  if d.day < daysInMonth d.year d.month then ⟨d.year, d.month, d.day + 1⟩
  else if d.month < 12 then ⟨d.year, d.month + 1, 1⟩
  else ⟨d.year + 1, 1, 1⟩

/-- `d - timedelta(days=1)`. -/
def subOneDay (d : Date) : Date :=
  if d.day > 1 then ⟨d.year, d.month, d.day - 1⟩
  else if d.month > 1 then ⟨d.year, d.month - 1, daysInMonth d.year (d.month - 1)⟩
  else ⟨d.year - 1, 12, 31⟩

/-- `d + timedelta(days=n)` for `n ≥ 0` (iterated single-day step). -/
def addDaysNat (d : Date) : Nat → Date
  | 0 => d
  | n + 1 => addDaysNat (addOneDay d) n

/-- `d + timedelta(days=n)` for an arbitrary integer `n`. -/
def addDays (d : Date) (n : Int) : Date :=
  if n ≥ 0 then addDaysNat d n.toNat
  else (fun k => Nat.rec d (fun _ acc => subOneDay acc) k) (-n).toNat

/-- English month name, `date.strftime('%B')`. -/
def monthName (month : Int) : String :=
  if month == 1 then "January"
  else if month == 2 then "February"
  else if month == 3 then "March"
  else if month == 4 then "April"
  else if month == 5 then "May"
  else if month == 6 then "June"
  else if month == 7 then "July"
  else if month == 8 then "August"
  else if month == 9 then "September"
  else if month == 10 then "October"
  else if month == 11 then "November"
  else "December"

/-- A period window, the `{name, startDate, endDate}` dict returned by the
period-resolver helpers. -/
structure PeriodInfo where
  name : String
  startDate : Date
  endDate : Date
  deriving DecidableEq, Repr

/-- `get_quarter_info(date_obj, start_date_obj)` (`app.py` 175–188).
Python's floor division `//` and nonnegative modulo `%` are Euclidean
division on `Int` (which `/` and `%` denote here); for the positive divisors
3 and 12 the two agree. -/
def get_quarter_info (dateObj startDateObj : Date) : PeriodInfo :=
  let monthsDiff : Int :=
    (dateObj.year - startDateObj.year) * 12 + (dateObj.month - startDateObj.month)
  let quarterIndex : Int := monthsDiff / 3
  let qStartMonth0 : Int := startDateObj.month + quarterIndex * 3
  let qStartYear : Int := startDateObj.year + (qStartMonth0 - 1) / 12
  let qStartMonth : Int := (qStartMonth0 - 1) % 12 + 1
  let qStartDate : Date := ⟨qStartYear, qStartMonth, startDateObj.day⟩
  let qEndMonth0 : Int := qStartDate.month + 3
  let qEndYear : Int := if qEndMonth0 > 12 then qStartDate.year + 1 else qStartDate.year
  let qEndMonth : Int := if qEndMonth0 > 12 then qEndMonth0 - 12 else qEndMonth0
  let qEndDate : Date := subOneDay ⟨qEndYear, qEndMonth, 1⟩
  { name := "Q" ++ toString (quarterIndex % 4 + 1) ++ " " ++ toString qStartDate.year
    startDate := qStartDate
    endDate := qEndDate }

/-- `get_month_info(date_obj, start_date_obj)` (`app.py` 190–207). -/
def get_month_info (dateObj startDateObj : Date) : PeriodInfo :=
  let monthStartDate : Date := ⟨dateObj.year, dateObj.month, startDateObj.day⟩
  let monthEndDate : Date :=
    if dateObj.month == 12 then ⟨dateObj.year, 12, 31⟩
    else subOneDay ⟨dateObj.year, dateObj.month + 1, startDateObj.day⟩
  { name := monthName dateObj.month ++ " " ++ toString dateObj.year
    startDate := monthStartDate
    endDate := monthEndDate }

/-- `get_financial_year_info(date_obj, start_date_obj)` (`app.py` 209–221). -/
def get_financial_year_info (dateObj _startDateObj : Date) : PeriodInfo :=
  let fyYear : Int := if dateObj.month ≥ 4 then dateObj.year else dateObj.year - 1
  { name := "FY" ++ toString fyYear ++ "-" ++ toString (fyYear + 1)
    startDate := ⟨fyYear, 4, 1⟩
    endDate := ⟨fyYear + 1, 3, 31⟩ }

/-- The day-count denominator pattern repeated throughout `app.py`
(e.g. lines 1381–1389):

    days_in_year = 365
    if is_leap(ANCHOR.year):
        feb_29 = date(ANCHOR.year, 2, 29)
        if s <= feb_29 <= e: days_in_year = 366

`anchorYear` is the year whose February 29 is checked; the engines pass the
window start's year, `calculate_settlement_amount` passes the closure year. -/
def pyDaysInYear (anchorYear : Int) (s e : Date) : Int :=
  if is_leap anchorYear then
    let feb29 : Date := ⟨anchorYear, 2, 29⟩
    if dateLE s feb29 && dateLE feb29 e then 366 else 365
  else 365

/-- A transaction row (`Transaction` model): `paid` is a disbursement,
`received` a repayment.  `id` is the database key (used as the ledger id of
ordinary rows); it also records insertion order for the stable sort. -/
structure Tx where
  id : Nat
  date : Date
  description : String
  paid : ℚ
  received : ℚ
  deriving DecidableEq, Repr

/-- Account settings (`Customer` model), the fields the engine reads. -/
structure Customer where
  icl_start_date : Date
  icl_end_date : Option Date
  interest_rate : ℚ
  tds_rate : ℚ
  penalty_rate : ℚ
  interest_type : String
  frequency : String
  repayment_method : String
  status : String
  grace_period : Nat
  overdue_days : Int
  transactions : List Tx
  deriving DecidableEq, Repr

/-- Insert a transaction into a date-sorted list, after any transaction with
an earlier-or-equal date (so the overall sort is stable, like `sorted`). -/
def insertTx (t : Tx) : List Tx → List Tx
  | [] => [t]
  | x :: xs => if dateLT t.date x.date then t :: x :: xs else x :: insertTx t xs

/-- `sorted(customer.transactions, key=lambda x: x.date)`: stable date sort. -/
def sortTxs (l : List Tx) : List Tx :=
  l.foldl (fun acc t => insertTx t acc) []

/-- One timeline row, the dict appended by the engines.  Keys that a row kind
omits are `none`; flag keys absent from a dict read as `false`. -/
structure Entry where
  id : String
  date : Date
  description : String
  paid : ℚ
  received : ℚ
  days : Option Int := none
  interest : Option ℚ := none
  penalty_interest : Option ℚ := none
  total_interest : Option ℚ := none
  tds : Option ℚ := none
  net : Option ℚ := none
  outstanding : ℚ
  principal_balance : Option ℚ := none
  isSummary : Bool := false
  isMissing : Bool := false
  isOpening : Bool := false
  is_overdue : Bool := false
  deriving DecidableEq, Repr

/-- The retroactive rewrite loop (`for entry in timeline: if entry.get('id')
== KEY: …; break`): update the first entry whose id matches. -/
def updateFirst (key : String) (f : Entry → Entry) : List Entry → List Entry
  | [] => []
  | e :: es => if e.id == key then f e :: es else e :: updateFirst key f es

/-- `calculate_overdue_days(customer, current_date)` (`app.py` 227–239). -/
def calculate_overdue_days (c : Customer) (currentDate : Date) : Int :=
  match c.icl_end_date with
  | none => 0
  | some e =>
    let graceEnd := addDaysNat e c.grace_period
    if dateLT graceEnd currentDate then daysBetween currentDate graceEnd else 0

/-- `calculate_penalty_interest(principal, penalty_rate, overdue_days)`
(`app.py` 241–249). -/
def calculate_penalty_interest (principalAmount penaltyRate : ℚ)
    (overdueDays : Int) : ℚ :=
  if overdueDays ≤ 0 then 0
  else principalAmount * (penaltyRate / 100 / 365) * (overdueDays : ℚ)

/-- `update_loan_status(customer, current_date)` (`app.py` 251–280): returns
the customer with the mutated `overdue_days`/`status` fields, paired with the
returned status string. -/
def update_loan_status (c : Customer) (currentDate : Date) : Customer × String :=
  let od := calculate_overdue_days c currentDate
  let c1 := { c with overdue_days := od }
  if c1.status == "closed" then (c1, c1.status)
  else if (match c1.icl_end_date with
           | some e => dateLE currentDate e
           | none => false) then ({ c1 with status := "active" }, "active")
  else if c1.icl_end_date.isNone then ({ c1 with status := "active" }, "active")
  else if od == 0 then ({ c1 with status := "active" }, "active")
  else if od ≤ 90 then ({ c1 with status := "overdue" }, "overdue")
  else ({ c1 with status := "npa" }, "npa")

/-- `X = D; if customer.icl_end_date and X > customer.icl_end_date:
X = customer.icl_end_date` — the end-date cap applied throughout. -/
def capAtEnd (c : Customer) (d : Date) : Date :=
  match c.icl_end_date with
  | some e => if dateLT e d then e else d
  | none => d

/-- The next-quarter walk of `add_missing_quarters` (`app.py` 1199–1206 and
336–342): three months past the current quarter's start, on the anchor day. -/
def nextQuarterStartDate (cur : PeriodInfo) (anchorDay : Int) : Date :=
  let m0 := cur.startDate.month + 3
  if m0 > 12 then ⟨cur.startDate.year + 1, m0 - 12, anchorDay⟩
  else ⟨cur.startDate.year, m0, anchorDay⟩

/-- The next-month walk of `add_missing_months` (`app.py` 1444–1452 and
625–633): one month past the current month's start, on the anchor day. -/
def nextMonthStartDate (cur : PeriodInfo) (anchorDay : Int) : Date :=
  let m0 := cur.startDate.month + 1
  if m0 > 12 then ⟨cur.startDate.year + 1, 1, anchorDay⟩
  else ⟨cur.startDate.year, m0, anchorDay⟩

/-- Loop state shared by the compound engines: the timeline built so far, the
running outstanding balance, the open period's accumulated net interest and
the open period's window. -/
structure CEState where
  timeline : List Entry
  running : ℚ
  periodNet : ℚ
  lastInfo : PeriodInfo

/-- `add_missing_quarters` nested in `calculate_compound_interest_data`
(`app.py` 1194–1254).  The `while` loop is modelled with fuel; each iteration
advances the walk by three months, so any fuel at least the day span between
the two quarters strictly dominates the iteration count (the claims below
only exercise runs where the loop terminates). -/
def add_missing_quarters_compound (c : Customer) (toQ : PeriodInfo) :
    Nat → PeriodInfo → ℚ → List Entry → List Entry × ℚ
  | 0, _, bal, tl => (tl, bal)
  | fuel + 1, cur, bal, tl =>
    if cur.name == toQ.name then (tl, bal)
    else
      let nextStart := nextQuarterStartDate cur c.icl_start_date.day
      let nextQ := get_quarter_info nextStart c.icl_start_date
      if nextQ.name == toQ.name then (tl, bal)
      else
        let quarterEnd := capAtEnd c nextQ.endDate
        let daysInQuarter := daysBetween quarterEnd cur.endDate
        let diy := pyDaysInYear cur.endDate.year cur.endDate quarterEnd
        let qInterest := bal * (c.interest_rate / 100) * (daysInQuarter : ℚ) / (diy : ℚ)
        let qNet := qInterest * (1 - c.tds_rate / 100)
        let entry : Entry :=
          { id := "missing-" ++ nextQ.name
            date := quarterEnd
            description := nextQ.name ++ " Net Interest (No Transactions)"
            paid := qNet, received := 0
            isSummary := true, isMissing := true
            outstanding := bal + qNet
            interest := some qInterest
            tds := some (qInterest - qNet)
            net := some qNet
            days := some daysInQuarter }
        let tl2 := tl ++ [entry]
        let bal2 := bal + qNet
        let stop := match c.icl_end_date with
          | some e => dateLE e quarterEnd
          | none => false
        if stop then (tl2, bal2)
        else add_missing_quarters_compound c toQ fuel nextQ bal2 tl2

/-- The per-transaction loop of `calculate_compound_interest_data`
(`app.py` 1256–1418), as a recursion over the sorted transaction list with
lookahead for `next_tx`. -/
def cq_loop (c : Customer) : List Tx → CEState → CEState
  | [], st => st
  | tx :: rest, st =>
    let txQ := get_quarter_info tx.date c.icl_start_date
    let isFirst := txQ.name != st.lastInfo.name
    let isRepay : Bool := decide (tx.received > 0)
    let st1 :=
      if isFirst then
        let running := st.running + st.periodNet
        let summaryE : Entry :=
          { id := "summary-" ++ st.lastInfo.name, date := st.lastInfo.endDate
            description := st.lastInfo.name ++ " Net Interest"
            paid := st.periodNet, received := 0
            isSummary := true, outstanding := running }
        let tl := st.timeline ++ [summaryE]
        let fuel := (daysBetween txQ.endDate st.lastInfo.startDate).toNat + 4
        let (tl2, running2) :=
          add_missing_quarters_compound c txQ fuel st.lastInfo running tl
        let openingEnd := capAtEnd c tx.date
        let daysOpening := daysBetween openingEnd txQ.startDate
        let diyO := pyDaysInYear txQ.startDate.year txQ.startDate openingEnd
        let iO := running2 * (c.interest_rate / 100) * (daysOpening : ℚ) / (diyO : ℚ)
        let nO := iO * (1 - c.tds_rate / 100)
        let openingE : Entry :=
          { id := "opening-" ++ txQ.name, date := txQ.startDate
            description := "Opening Balance"
            paid := 0, received := 0, isOpening := true
            outstanding := running2
            days := some daysOpening, interest := some iO
            tds := some (iO - nO), net := some nO }
        { timeline := tl2 ++ [openingE], running := running2
          periodNet := nO, lastInfo := txQ }
      else st
    let outstandingRow := st1.running + tx.paid - tx.received
    let endAfterCap := capAtEnd c txQ.endDate
    let nextSame :=
      match rest.head? with
      | some nt =>
        let ntQ := get_quarter_info nt.date c.icl_start_date
        if ntQ.name == txQ.name &&
            (match c.icl_end_date with
             | some e => dateLE nt.date e
             | none => true) then some nt.date else none
      | none => none
    let endDate := match nextSame with | some d => d | none => endAfterCap
    let isLast := nextSame.isNone
    let useInclusive : Bool :=
      c.repayment_method == "inclusive" ||
      (c.repayment_method == "exclusive" && isFirst && isRepay &&
        tx.date == txQ.endDate)
    let (st2, days) :=
      if isFirst && isRepay && useInclusive then
        let openingDays := daysBetween tx.date txQ.startDate + 1
        let reduced := st1.running + tx.paid - tx.received
        let balCalc := if tx.received > st1.running then st1.running else reduced
        let diyO := pyDaysInYear txQ.startDate.year txQ.startDate tx.date
        let iO := balCalc * (c.interest_rate / 100) * (openingDays : ℚ) / (diyO : ℚ)
        let nO := iO * (1 - c.tds_rate / 100)
        let rewriteRow : Entry → Entry := fun e =>
          { e with
            days := some openingDays
            interest := some iO
            net := some nO
            tds := some (iO - nO) }
        let tl := updateFirst ("opening-" ++ txQ.name) rewriteRow st1.timeline
        let d : Int :=
          if outstandingRow ≤ 0 then 0
          else
            let d0 := daysBetween endDate (addOneDay tx.date)
            let d1 := if isLast then d0 + 1 else d0
            if d1 < 0 then 0 else d1
        ({ st1 with timeline := tl, periodNet := nO }, d)
      else
        let d0 := daysBetween endDate tx.date
        (st1, if isLast then d0 + 1 else d0)
    let diy := pyDaysInYear tx.date.year tx.date (addDays tx.date days)
    let interest := outstandingRow * (c.interest_rate / 100) * (days : ℚ) / (diy : ℚ)
    let isOver : Bool :=
      match c.icl_end_date with
      | some e => dateLT e tx.date
      | none => false
    let penalty :=
      if isOver then
        let od := calculate_overdue_days c tx.date
        if od > 0 then
          calculate_penalty_interest outstandingRow c.penalty_rate (min od days)
        else 0
      else 0
    let total := interest + penalty
    let net := total * (1 - c.tds_rate / 100)
    let txE : Entry :=
      { id := toString tx.id, date := tx.date, description := tx.description
        paid := tx.paid, received := tx.received
        days := some days, interest := some interest
        penalty_interest := some penalty, total_interest := some total
        net := some net, tds := some (total - net)
        outstanding := outstandingRow, is_overdue := isOver }
    cq_loop c rest
      { timeline := st2.timeline ++ [txE], running := outstandingRow
        periodNet := st2.periodNet + net, lastInfo := st2.lastInfo }

/-- `calculate_compound_interest_data(customer, settings)` (`app.py`
1183–1426): the quarterly compound engine.  An empty transaction list would
raise `IndexError` at `sorted_txs[0]`, hence the `Except`. -/
def calculate_compound_interest_data (c : Customer) : Except String (List Entry) :=
  match sortTxs c.transactions with
  | [] => .error "IndexError: list index out of range"
  | tx0 :: rest =>
    let sorted := tx0 :: rest
    let firstQ := get_quarter_info tx0.date c.icl_start_date
    let st := cq_loop c sorted
      { timeline := [], running := 0, periodNet := 0, lastInfo := firstQ }
    let finalOutstanding := st.running + st.periodNet
    let lastTx := sorted.getLast (List.cons_ne_nil _ _)
    let lastQ := get_quarter_info lastTx.date c.icl_start_date
    .ok (st.timeline ++
      [{ id := "summary-" ++ lastQ.name, date := lastQ.endDate
         description := lastQ.name ++ " Net Interest"
         paid := st.periodNet, received := 0
         isSummary := true, outstanding := finalOutstanding }])

/-- Loop state of the simple-interest engines, which additionally track the
principal balance (paid − received, never capitalised). -/
structure SEState where
  timeline : List Entry
  running : ℚ
  periodNet : ℚ
  principal : ℚ
  lastInfo : PeriodInfo

/-- `add_missing_quarters` nested in `calculate_simple_interest_data`
(`app.py` 330–392): interest on the principal balance only.  Fuel as in
`add_missing_quarters_compound`. -/
def add_missing_quarters_simple (c : Customer) (toQ : PeriodInfo) (principalBal : ℚ) :
    Nat → PeriodInfo → ℚ → List Entry → List Entry × ℚ
  | 0, _, bal, tl => (tl, bal)
  | fuel + 1, cur, bal, tl =>
    if cur.name == toQ.name then (tl, bal)
    else
      let nextStart := nextQuarterStartDate cur c.icl_start_date.day
      let nextQ := get_quarter_info nextStart c.icl_start_date
      if nextQ.name == toQ.name then (tl, bal)
      else
        let quarterEnd := capAtEnd c nextQ.endDate
        let daysInQuarter := daysBetween quarterEnd cur.endDate
        let diy := pyDaysInYear cur.endDate.year cur.endDate quarterEnd
        let qInterest := principalBal * (c.interest_rate / 100) * (daysInQuarter : ℚ) / (diy : ℚ)
        let qNet := qInterest * (1 - c.tds_rate / 100)
        let entry : Entry :=
          { id := "missing-" ++ nextQ.name
            date := quarterEnd
            description := nextQ.name ++ " Net Interest (No Transactions)"
            paid := qNet, received := 0
            isSummary := true, isMissing := true
            outstanding := bal + qNet
            principal_balance := some principalBal
            interest := some qInterest
            tds := some (qInterest - qNet)
            net := some qNet
            days := some daysInQuarter }
        let tl2 := tl ++ [entry]
        let bal2 := bal + qNet
        let stop := match c.icl_end_date with
          | some e => dateLE e quarterEnd
          | none => false
        if stop then (tl2, bal2)
        else add_missing_quarters_simple c toQ principalBal fuel nextQ bal2 tl2

/-- The per-transaction loop of `calculate_simple_interest_data`
(`app.py` 394–589). -/
def sq_loop (c : Customer) : List Tx → SEState → SEState
  | [], st => st
  | tx :: rest, st =>
    let txQ := get_quarter_info tx.date c.icl_start_date
    let isFirst := txQ.name != st.lastInfo.name
    let isRepay : Bool := decide (tx.received > 0)
    let st1 :=
      if isFirst then
        let running := st.running + st.periodNet
        let summaryE : Entry :=
          { id := "summary-" ++ st.lastInfo.name, date := st.lastInfo.endDate
            description := st.lastInfo.name ++ " Net Interest"
            paid := st.periodNet, received := 0
            isSummary := true, outstanding := running
            principal_balance := some st.principal }
        let tl := st.timeline ++ [summaryE]
        let fuel := (daysBetween txQ.endDate st.lastInfo.startDate).toNat + 4
        let (tl2, running2) :=
          add_missing_quarters_simple c txQ st.principal fuel st.lastInfo running tl
        let openingEnd := capAtEnd c tx.date
        let daysOpening := daysBetween openingEnd txQ.startDate
        let diyO := pyDaysInYear txQ.startDate.year txQ.startDate openingEnd
        let iO := st.principal * (c.interest_rate / 100) * (daysOpening : ℚ) / (diyO : ℚ)
        let nO := iO * (1 - c.tds_rate / 100)
        let openingE : Entry :=
          { id := "opening-" ++ txQ.name, date := txQ.startDate
            description := "Opening Balance"
            paid := 0, received := 0, isOpening := true
            outstanding := running2
            principal_balance := some st.principal
            interest := some iO
            tds := some (iO - nO), net := some nO }
        { timeline := tl2 ++ [openingE], running := running2
          periodNet := nO, principal := st.principal, lastInfo := txQ }
      else st
    let principal2 := st1.principal + tx.paid - tx.received
    let outstandingRow := st1.running + tx.paid - tx.received
    let endAfterCap := capAtEnd c txQ.endDate
    let nextSame :=
      match rest.head? with
      | some nt =>
        let ntQ := get_quarter_info nt.date c.icl_start_date
        if ntQ.name == txQ.name &&
            (match c.icl_end_date with
             | some e => dateLE nt.date e
             | none => true) then some nt.date else none
      | none => none
    let endDate := match nextSame with | some d => d | none => endAfterCap
    let isLast := nextSame.isNone
    let useInclusive : Bool :=
      c.repayment_method == "inclusive" ||
      (c.repayment_method == "exclusive" && isFirst && isRepay &&
        tx.date == txQ.endDate)
    let (st2, days) :=
      if isFirst && isRepay && useInclusive then
        let openingDays := daysBetween tx.date txQ.startDate + 1
        let reducedPrincipal := principal2
        let originalPrincipal := principal2 - tx.paid + tx.received
        let balCalc :=
          if tx.received > st1.running then originalPrincipal else reducedPrincipal
        let diyO := pyDaysInYear txQ.startDate.year txQ.startDate tx.date
        let iO := balCalc * (c.interest_rate / 100) * (openingDays : ℚ) / (diyO : ℚ)
        let nO := iO * (1 - c.tds_rate / 100)
        let rewriteRow : Entry → Entry := fun e =>
          { e with
            days := some openingDays
            interest := some iO
            net := some nO
            tds := some (iO - nO) }
        let tl := updateFirst ("opening-" ++ txQ.name) rewriteRow st1.timeline
        let d : Int :=
          if outstandingRow ≤ 0 then 0
          else
            let d0 := daysBetween endDate (addOneDay tx.date)
            let d1 := if isLast then d0 + 1 else d0
            if d1 < 0 then 0 else d1
        ({ st1 with timeline := tl, periodNet := nO }, d)
      else
        let d0 := daysBetween endDate tx.date
        (st1, if isLast then d0 + 1 else d0)
    let diy := pyDaysInYear tx.date.year tx.date (addDays tx.date days)
    let interest := principal2 * (c.interest_rate / 100) * (days : ℚ) / (diy : ℚ)
    let isOver : Bool :=
      match c.icl_end_date with
      | some e => dateLT e tx.date
      | none => false
    let penalty :=
      if isOver then
        let od := calculate_overdue_days c tx.date
        if od > 0 then
          calculate_penalty_interest principal2 c.penalty_rate (min od days)
        else 0
      else 0
    let total := interest + penalty
    let net := total * (1 - c.tds_rate / 100)
    let txE : Entry :=
      { id := toString tx.id, date := tx.date, description := tx.description
        paid := tx.paid, received := tx.received
        days := some days, interest := some interest
        penalty_interest := some penalty, total_interest := some total
        net := some net, tds := some (total - net)
        outstanding := outstandingRow
        principal_balance := some principal2, is_overdue := isOver }
    sq_loop c rest
      { timeline := st2.timeline ++ [txE], running := outstandingRow
        periodNet := st2.periodNet + net, principal := principal2
        lastInfo := st2.lastInfo }

/-- `calculate_simple_interest_data(customer, settings)` (`app.py` 318–606):
the quarterly simple engine. -/
def calculate_simple_interest_data (c : Customer) : Except String (List Entry) :=
  match sortTxs c.transactions with
  | [] => .error "IndexError: list index out of range"
  | tx0 :: rest =>
    let sorted := tx0 :: rest
    let firstQ := get_quarter_info tx0.date c.icl_start_date
    let st := sq_loop c sorted
      { timeline := [], running := 0, periodNet := 0, principal := 0, lastInfo := firstQ }
    let finalOutstanding := st.running + st.periodNet
    let lastTx := sorted.getLast (List.cons_ne_nil _ _)
    let lastQ := get_quarter_info lastTx.date c.icl_start_date
    .ok (st.timeline ++
      [{ id := "summary-" ++ lastQ.name, date := lastQ.endDate
         description := lastQ.name ++ " Net Interest"
         paid := st.periodNet, received := 0
         isSummary := true, outstanding := finalOutstanding
         principal_balance := some st.principal }])

/-- `add_missing_months` nested in `calculate_monthly_simple_interest_data`
(`app.py` 620–683). -/
def add_missing_months_simple (c : Customer) (toM : PeriodInfo) (principalBal : ℚ) :
    Nat → PeriodInfo → ℚ → List Entry → List Entry × ℚ
  | 0, _, bal, tl => (tl, bal)
  | fuel + 1, cur, bal, tl =>
    if cur.name == toM.name then (tl, bal)
    else
      let nextStart := nextMonthStartDate cur c.icl_start_date.day
      let nextM := get_month_info nextStart c.icl_start_date
      if nextM.name == toM.name then (tl, bal)
      else
        let monthEnd := capAtEnd c nextM.endDate
        let daysInPeriod := daysBetween monthEnd cur.endDate
        let diy := pyDaysInYear cur.endDate.year cur.endDate monthEnd
        let mInterest := principalBal * (c.interest_rate / 100) * (daysInPeriod : ℚ) / (diy : ℚ)
        let mNet := mInterest * (1 - c.tds_rate / 100)
        let entry : Entry :=
          { id := "missing-" ++ nextM.name
            date := monthEnd
            description := nextM.name ++ " Net Interest (No Transactions)"
            paid := mNet, received := 0
            isSummary := true, isMissing := true
            outstanding := bal + mNet
            principal_balance := some principalBal
            interest := some mInterest
            tds := some (mInterest - mNet)
            net := some mNet
            days := some daysInPeriod }
        let tl2 := tl ++ [entry]
        let bal2 := bal + mNet
        let stop := match c.icl_end_date with
          | some e => dateLE e monthEnd
          | none => false
        if stop then (tl2, bal2)
        else add_missing_months_simple c toM principalBal fuel nextM bal2 tl2

/-- The per-transaction loop of `calculate_monthly_simple_interest_data`
(`app.py` 685–880).  NOTE the faithful transcription of line 816: the
retroactive opening-row rewrite stores `tds = opening_interest − net_opening`
where `net_opening` is the net of the opening row as first created earlier in
the same iteration — not `opening_net`, the rewritten net stored in the same
row — unlike the quarterly (line 525) and yearly (line 1100) variants. -/
def msq_loop (c : Customer) : List Tx → SEState → SEState
  | [], st => st
  | tx :: rest, st =>
    let txM := get_month_info tx.date c.icl_start_date
    let isFirst := txM.name != st.lastInfo.name
    let isRepay : Bool := decide (tx.received > 0)
    let stNet :=
      if isFirst then
        let running := st.running + st.periodNet
        let summaryE : Entry :=
          { id := "summary-" ++ st.lastInfo.name, date := st.lastInfo.endDate
            description := st.lastInfo.name ++ " Net Interest"
            paid := st.periodNet, received := 0
            isSummary := true, outstanding := running
            principal_balance := some st.principal }
        let tl := st.timeline ++ [summaryE]
        let fuel := (daysBetween txM.endDate st.lastInfo.startDate).toNat + 4
        let (tl2, running2) :=
          add_missing_months_simple c txM st.principal fuel st.lastInfo running tl
        let openingEnd := capAtEnd c tx.date
        let daysOpening := daysBetween openingEnd txM.startDate
        let diyO := pyDaysInYear txM.startDate.year txM.startDate openingEnd
        let iO := st.principal * (c.interest_rate / 100) * (daysOpening : ℚ) / (diyO : ℚ)
        let nO := iO * (1 - c.tds_rate / 100)
        let openingE : Entry :=
          { id := "opening-" ++ txM.name, date := txM.startDate
            description := "Opening Balance"
            paid := 0, received := 0, isOpening := true
            outstanding := running2
            principal_balance := some st.principal
            interest := some iO
            tds := some (iO - nO), net := some nO }
        ({ timeline := tl2 ++ [openingE], running := running2
           periodNet := nO, principal := st.principal, lastInfo := txM }, nO)
      else (st, 0)
    let st1 := stNet.1
    let netOpening := stNet.2
    let principal2 := st1.principal + tx.paid - tx.received
    let outstandingRow := st1.running + tx.paid - tx.received
    let endAfterCap := capAtEnd c txM.endDate
    let nextSame :=
      match rest.head? with
      | some nt =>
        let ntM := get_month_info nt.date c.icl_start_date
        if ntM.name == txM.name &&
            (match c.icl_end_date with
             | some e => dateLE nt.date e
             | none => true) then some nt.date else none
      | none => none
    let endDate := match nextSame with | some d => d | none => endAfterCap
    let isLast := nextSame.isNone
    let useInclusive : Bool :=
      c.repayment_method == "inclusive" ||
      (c.repayment_method == "exclusive" && isFirst && isRepay &&
        tx.date == txM.endDate)
    let (st2, days) :=
      if isFirst && isRepay && useInclusive then
        let openingDays := daysBetween tx.date txM.startDate + 1
        let reducedPrincipal := principal2
        let originalPrincipal := principal2 - tx.paid + tx.received
        let balCalc :=
          if tx.received > st1.running then originalPrincipal else reducedPrincipal
        let diyO := pyDaysInYear txM.startDate.year txM.startDate tx.date
        let iO := balCalc * (c.interest_rate / 100) * (openingDays : ℚ) / (diyO : ℚ)
        let nO := iO * (1 - c.tds_rate / 100)
        let rewriteRow : Entry → Entry := fun e =>
          { e with
            days := some openingDays
            interest := some iO
            net := some nO
            tds := some (iO - netOpening) }
        let tl := updateFirst ("opening-" ++ txM.name) rewriteRow st1.timeline
        let d : Int :=
          if outstandingRow ≤ 0 then 0
          else
            let d0 := daysBetween endDate (addOneDay tx.date)
            let d1 := if isLast then d0 + 1 else d0
            if d1 < 0 then 0 else d1
        ({ st1 with timeline := tl, periodNet := nO }, d)
      else
        let d0 := daysBetween endDate tx.date
        (st1, if isLast then d0 + 1 else d0)
    let diy := pyDaysInYear tx.date.year tx.date (addDays tx.date days)
    let interest := principal2 * (c.interest_rate / 100) * (days : ℚ) / (diy : ℚ)
    let isOver : Bool :=
      match c.icl_end_date with
      | some e => dateLT e tx.date
      | none => false
    let penalty :=
      if isOver then
        let od := calculate_overdue_days c tx.date
        if od > 0 then
          calculate_penalty_interest principal2 c.penalty_rate (min od days)
        else 0
      else 0
    let total := interest + penalty
    let net := total * (1 - c.tds_rate / 100)
    let txE : Entry :=
      { id := toString tx.id, date := tx.date, description := tx.description
        paid := tx.paid, received := tx.received
        days := some days, interest := some interest
        penalty_interest := some penalty, total_interest := some total
        net := some net, tds := some (total - net)
        outstanding := outstandingRow
        principal_balance := some principal2, is_overdue := isOver }
    msq_loop c rest
      { timeline := st2.timeline ++ [txE], running := outstandingRow
        periodNet := st2.periodNet + net, principal := principal2
        lastInfo := st2.lastInfo }

/-- `calculate_monthly_simple_interest_data(customer, settings)`
(`app.py` 608–897): the monthly simple engine. -/
def calculate_monthly_simple_interest_data (c : Customer) :
    Except String (List Entry) :=
  match sortTxs c.transactions with
  | [] => .error "IndexError: list index out of range"
  | tx0 :: rest =>
    let sorted := tx0 :: rest
    let firstM := get_month_info tx0.date c.icl_start_date
    let st := msq_loop c sorted
      { timeline := [], running := 0, periodNet := 0, principal := 0, lastInfo := firstM }
    let finalOutstanding := st.running + st.periodNet
    let lastTx := sorted.getLast (List.cons_ne_nil _ _)
    let lastM := get_month_info lastTx.date c.icl_start_date
    .ok (st.timeline ++
      [{ id := "summary-" ++ lastM.name, date := lastM.endDate
         description := lastM.name ++ " Net Interest"
         paid := st.periodNet, received := 0
         isSummary := true, outstanding := finalOutstanding
         principal_balance := some st.principal }])

/-- The next-financial-year walk of `add_missing_years` (`app.py` 917,
1692): April 1 of the year after the current period's start. -/
def nextYearStartDate (cur : PeriodInfo) : Date :=
  ⟨cur.startDate.year + 1, 4, 1⟩

/-- `add_missing_years` nested in `calculate_yearly_simple_interest_data`
(`app.py` 911–967). -/
def add_missing_years_simple (c : Customer) (toY : PeriodInfo) (principalBal : ℚ) :
    Nat → PeriodInfo → ℚ → List Entry → List Entry × ℚ
  | 0, _, bal, tl => (tl, bal)
  | fuel + 1, cur, bal, tl =>
    if cur.name == toY.name then (tl, bal)
    else
      let nextY := get_financial_year_info (nextYearStartDate cur) c.icl_start_date
      if nextY.name == toY.name then (tl, bal)
      else
        let yearEnd := capAtEnd c nextY.endDate
        let daysInPeriod := daysBetween yearEnd cur.endDate
        let diy := pyDaysInYear cur.endDate.year cur.endDate yearEnd
        let yInterest := principalBal * (c.interest_rate / 100) * (daysInPeriod : ℚ) / (diy : ℚ)
        let yNet := yInterest * (1 - c.tds_rate / 100)
        let entry : Entry :=
          { id := "missing-" ++ nextY.name
            date := yearEnd
            description := nextY.name ++ " Net Interest (No Transactions)"
            paid := yNet, received := 0
            isSummary := true, isMissing := true
            outstanding := bal + yNet
            principal_balance := some principalBal
            interest := some yInterest
            tds := some (yInterest - yNet)
            net := some yNet
            days := some daysInPeriod }
        let tl2 := tl ++ [entry]
        let bal2 := bal + yNet
        let stop := match c.icl_end_date with
          | some e => dateLE e yearEnd
          | none => false
        if stop then (tl2, bal2)
        else add_missing_years_simple c toY principalBal fuel nextY bal2 tl2

/-- The per-transaction loop of `calculate_yearly_simple_interest_data`
(`app.py` 969–1164). -/
def ysq_loop (c : Customer) : List Tx → SEState → SEState
  | [], st => st
  | tx :: rest, st =>
    let txY := get_financial_year_info tx.date c.icl_start_date
    let isFirst := txY.name != st.lastInfo.name
    let isRepay : Bool := decide (tx.received > 0)
    let st1 :=
      if isFirst then
        let running := st.running + st.periodNet
        let summaryE : Entry :=
          { id := "summary-" ++ st.lastInfo.name, date := st.lastInfo.endDate
            description := st.lastInfo.name ++ " Net Interest"
            paid := st.periodNet, received := 0
            isSummary := true, outstanding := running
            principal_balance := some st.principal }
        let tl := st.timeline ++ [summaryE]
        let fuel := (daysBetween txY.endDate st.lastInfo.startDate).toNat + 4
        let (tl2, running2) :=
          add_missing_years_simple c txY st.principal fuel st.lastInfo running tl
        let openingEnd := capAtEnd c tx.date
        let daysOpening := daysBetween openingEnd txY.startDate
        let diyO := pyDaysInYear txY.startDate.year txY.startDate openingEnd
        let iO := st.principal * (c.interest_rate / 100) * (daysOpening : ℚ) / (diyO : ℚ)
        let nO := iO * (1 - c.tds_rate / 100)
        let openingE : Entry :=
          { id := "opening-" ++ txY.name, date := txY.startDate
            description := "Opening Balance"
            paid := 0, received := 0, isOpening := true
            outstanding := running2
            principal_balance := some st.principal
            interest := some iO
            tds := some (iO - nO), net := some nO }
        { timeline := tl2 ++ [openingE], running := running2
          periodNet := nO, principal := st.principal, lastInfo := txY }
      else st
    let principal2 := st1.principal + tx.paid - tx.received
    let outstandingRow := st1.running + tx.paid - tx.received
    let endAfterCap := capAtEnd c txY.endDate
    let nextSame :=
      match rest.head? with
      | some nt =>
        let ntY := get_financial_year_info nt.date c.icl_start_date
        if ntY.name == txY.name &&
            (match c.icl_end_date with
             | some e => dateLE nt.date e
             | none => true) then some nt.date else none
      | none => none
    let endDate := match nextSame with | some d => d | none => endAfterCap
    let isLast := nextSame.isNone
    let useInclusive : Bool :=
      c.repayment_method == "inclusive" ||
      (c.repayment_method == "exclusive" && isFirst && isRepay &&
        tx.date == txY.endDate)
    let (st2, days) :=
      if isFirst && isRepay && useInclusive then
        let openingDays := daysBetween tx.date txY.startDate + 1
        let reducedPrincipal := principal2
        let originalPrincipal := principal2 - tx.paid + tx.received
        let balCalc :=
          if tx.received > st1.running then originalPrincipal else reducedPrincipal
        let diyO := pyDaysInYear txY.startDate.year txY.startDate tx.date
        let iO := balCalc * (c.interest_rate / 100) * (openingDays : ℚ) / (diyO : ℚ)
        let nO := iO * (1 - c.tds_rate / 100)
        let rewriteRow : Entry → Entry := fun e =>
          { e with
            days := some openingDays
            interest := some iO
            net := some nO
            tds := some (iO - nO) }
        let tl := updateFirst ("opening-" ++ txY.name) rewriteRow st1.timeline
        let d : Int :=
          if outstandingRow ≤ 0 then 0
          else
            let d0 := daysBetween endDate (addOneDay tx.date)
            let d1 := if isLast then d0 + 1 else d0
            if d1 < 0 then 0 else d1
        ({ st1 with timeline := tl, periodNet := nO }, d)
      else
        let d0 := daysBetween endDate tx.date
        (st1, if isLast then d0 + 1 else d0)
    let diy := pyDaysInYear tx.date.year tx.date (addDays tx.date days)
    let interest := principal2 * (c.interest_rate / 100) * (days : ℚ) / (diy : ℚ)
    let isOver : Bool :=
      match c.icl_end_date with
      | some e => dateLT e tx.date
      | none => false
    let penalty :=
      if isOver then
        let od := calculate_overdue_days c tx.date
        if od > 0 then
          calculate_penalty_interest principal2 c.penalty_rate (min od days)
        else 0
      else 0
    let total := interest + penalty
    let net := total * (1 - c.tds_rate / 100)
    let txE : Entry :=
      { id := toString tx.id, date := tx.date, description := tx.description
        paid := tx.paid, received := tx.received
        days := some days, interest := some interest
        penalty_interest := some penalty, total_interest := some total
        net := some net, tds := some (total - net)
        outstanding := outstandingRow
        principal_balance := some principal2, is_overdue := isOver }
    ysq_loop c rest
      { timeline := st2.timeline ++ [txE], running := outstandingRow
        periodNet := st2.periodNet + net, principal := principal2
        lastInfo := st2.lastInfo }

/-- `calculate_yearly_simple_interest_data(customer, settings)`
(`app.py` 899–1181): the financial-year simple engine. -/
def calculate_yearly_simple_interest_data (c : Customer) :
    Except String (List Entry) :=
  match sortTxs c.transactions with
  | [] => .error "IndexError: list index out of range"
  | tx0 :: rest =>
    let sorted := tx0 :: rest
    let firstY := get_financial_year_info tx0.date c.icl_start_date
    let st := ysq_loop c sorted
      { timeline := [], running := 0, periodNet := 0, principal := 0, lastInfo := firstY }
    let finalOutstanding := st.running + st.periodNet
    let lastTx := sorted.getLast (List.cons_ne_nil _ _)
    let lastY := get_financial_year_info lastTx.date c.icl_start_date
    .ok (st.timeline ++
      [{ id := "summary-" ++ lastY.name, date := lastY.endDate
         description := lastY.name ++ " Net Interest"
         paid := st.periodNet, received := 0
         isSummary := true, outstanding := finalOutstanding
         principal_balance := some st.principal }])

/-- `add_missing_years` nested in `calculate_yearly_compound_interest_data`
(`app.py` 1686–1740): interest on the outstanding balance. -/
def add_missing_years_compound (c : Customer) (toY : PeriodInfo) :
    Nat → PeriodInfo → ℚ → List Entry → List Entry × ℚ
  | 0, _, bal, tl => (tl, bal)
  | fuel + 1, cur, bal, tl =>
    if cur.name == toY.name then (tl, bal)
    else
      let nextY := get_financial_year_info (nextYearStartDate cur) c.icl_start_date
      if nextY.name == toY.name then (tl, bal)
      else
        let yearEnd := capAtEnd c nextY.endDate
        let daysInPeriod := daysBetween yearEnd cur.endDate
        let diy := pyDaysInYear cur.endDate.year cur.endDate yearEnd
        let yInterest := bal * (c.interest_rate / 100) * (daysInPeriod : ℚ) / (diy : ℚ)
        let yNet := yInterest * (1 - c.tds_rate / 100)
        let entry : Entry :=
          { id := "missing-" ++ nextY.name
            date := yearEnd
            description := nextY.name ++ " Net Interest (No Transactions)"
            paid := yNet, received := 0
            isSummary := true, isMissing := true
            outstanding := bal + yNet
            interest := some yInterest
            tds := some (yInterest - yNet)
            net := some yNet
            days := some daysInPeriod }
        let tl2 := tl ++ [entry]
        let bal2 := bal + yNet
        let stop := match c.icl_end_date with
          | some e => dateLE e yearEnd
          | none => false
        if stop then (tl2, bal2)
        else add_missing_years_compound c toY fuel nextY bal2 tl2

/-- The per-transaction loop of `calculate_yearly_compound_interest_data`
(`app.py` 1742–1905). -/
def ycq_loop (c : Customer) : List Tx → CEState → CEState
  | [], st => st
  | tx :: rest, st =>
    let txY := get_financial_year_info tx.date c.icl_start_date
    let isFirst := txY.name != st.lastInfo.name
    let isRepay : Bool := decide (tx.received > 0)
    let st1 :=
      if isFirst then
        let running := st.running + st.periodNet
        let summaryE : Entry :=
          { id := "summary-" ++ st.lastInfo.name, date := st.lastInfo.endDate
            description := st.lastInfo.name ++ " Net Interest"
            paid := st.periodNet, received := 0
            isSummary := true, outstanding := running }
        let tl := st.timeline ++ [summaryE]
        let fuel := (daysBetween txY.endDate st.lastInfo.startDate).toNat + 4
        let (tl2, running2) :=
          add_missing_years_compound c txY fuel st.lastInfo running tl
        let openingEnd := capAtEnd c tx.date
        let daysOpening := daysBetween openingEnd txY.startDate
        let diyO := pyDaysInYear txY.startDate.year txY.startDate openingEnd
        let iO := running2 * (c.interest_rate / 100) * (daysOpening : ℚ) / (diyO : ℚ)
        let nO := iO * (1 - c.tds_rate / 100)
        let openingE : Entry :=
          { id := "opening-" ++ txY.name, date := txY.startDate
            description := "Opening Balance"
            paid := 0, received := 0, isOpening := true
            outstanding := running2
            days := some daysOpening, interest := some iO
            tds := some (iO - nO), net := some nO }
        { timeline := tl2 ++ [openingE], running := running2
          periodNet := nO, lastInfo := txY }
      else st
    let outstandingRow := st1.running + tx.paid - tx.received
    let endAfterCap := capAtEnd c txY.endDate
    let nextSame :=
      match rest.head? with
      | some nt =>
        let ntY := get_financial_year_info nt.date c.icl_start_date
        if ntY.name == txY.name &&
            (match c.icl_end_date with
             | some e => dateLE nt.date e
             | none => true) then some nt.date else none
      | none => none
    let endDate := match nextSame with | some d => d | none => endAfterCap
    let isLast := nextSame.isNone
    let useInclusive : Bool :=
      c.repayment_method == "inclusive" ||
      (c.repayment_method == "exclusive" && isFirst && isRepay &&
        tx.date == txY.endDate)
    let (st2, days) :=
      if isFirst && isRepay && useInclusive then
        let openingDays := daysBetween tx.date txY.startDate + 1
        let reduced := st1.running + tx.paid - tx.received
        let balCalc := if tx.received > st1.running then st1.running else reduced
        let diyO := pyDaysInYear txY.startDate.year txY.startDate tx.date
        let iO := balCalc * (c.interest_rate / 100) * (openingDays : ℚ) / (diyO : ℚ)
        let nO := iO * (1 - c.tds_rate / 100)
        let rewriteRow : Entry → Entry := fun e =>
          { e with
            days := some openingDays
            interest := some iO
            net := some nO
            tds := some (iO - nO) }
        let tl := updateFirst ("opening-" ++ txY.name) rewriteRow st1.timeline
        let d : Int :=
          if outstandingRow ≤ 0 then 0
          else
            let d0 := daysBetween endDate (addOneDay tx.date)
            let d1 := if isLast then d0 + 1 else d0
            if d1 < 0 then 0 else d1
        ({ st1 with timeline := tl, periodNet := nO }, d)
      else
        let d0 := daysBetween endDate tx.date
        (st1, if isLast then d0 + 1 else d0)
    let diy := pyDaysInYear tx.date.year tx.date (addDays tx.date days)
    let interest := outstandingRow * (c.interest_rate / 100) * (days : ℚ) / (diy : ℚ)
    let isOver : Bool :=
      match c.icl_end_date with
      | some e => dateLT e tx.date
      | none => false
    let penalty :=
      if isOver then
        let od := calculate_overdue_days c tx.date
        if od > 0 then
          calculate_penalty_interest outstandingRow c.penalty_rate (min od days)
        else 0
      else 0
    let total := interest + penalty
    let net := total * (1 - c.tds_rate / 100)
    let txE : Entry :=
      { id := toString tx.id, date := tx.date, description := tx.description
        paid := tx.paid, received := tx.received
        days := some days, interest := some interest
        penalty_interest := some penalty, total_interest := some total
        net := some net, tds := some (total - net)
        outstanding := outstandingRow, is_overdue := isOver }
    ycq_loop c rest
      { timeline := st2.timeline ++ [txE], running := outstandingRow
        periodNet := st2.periodNet + net, lastInfo := st2.lastInfo }

/-- `calculate_yearly_compound_interest_data(customer, settings)`
(`app.py` 1675–1955): the financial-year compound engine, including the
remaining-period patch up to the ICL end date (lines 1914–1954). -/
def calculate_yearly_compound_interest_data (c : Customer) :
    Except String (List Entry) :=
  match sortTxs c.transactions with
  | [] => .error "IndexError: list index out of range"
  | tx0 :: rest =>
    let sorted := tx0 :: rest
    let firstY := get_financial_year_info tx0.date c.icl_start_date
    let st := ycq_loop c sorted
      { timeline := [], running := 0, periodNet := 0, lastInfo := firstY }
    let finalOutstanding := st.running + st.periodNet
    let lastTx := sorted.getLast (List.cons_ne_nil _ _)
    let lastY := get_financial_year_info lastTx.date c.icl_start_date
    let tl := st.timeline ++
      [{ id := "summary-" ++ lastY.name, date := lastY.endDate
         description := lastY.name ++ " Net Interest"
         paid := st.periodNet, received := 0
         isSummary := true, outstanding := finalOutstanding }]
    match c.icl_end_date with
    | some e =>
      if dateLT lastY.endDate e then
        let remStart := addOneDay lastY.endDate
        let remDays := daysBetween e remStart + 1
        if remDays > 0 then
          let diy := pyDaysInYear remStart.year remStart e
          let remInterest := finalOutstanding * (c.interest_rate / 100) * (remDays : ℚ) / (diy : ℚ)
          let remNet := remInterest * (1 - c.tds_rate / 100)
          .ok (tl ++
            [{ id := "remaining-period", date := e
               description := "Remaining Period Interest (to ICL End Date)"
               paid := remNet, received := 0
               isSummary := true, outstanding := finalOutstanding + remNet
               interest := some remInterest
               tds := some (remInterest - remNet)
               net := some remNet, days := some remDays }])
        else .ok tl
      else .ok tl
    | none => .ok tl

/-- `calculate_monthly_compound_interest_data(customer, settings)`
(`app.py` 1428–1673).  Its per-transaction body computes the row's interest,
penalty base and `principal_balance` field from the name `principal_balance`
(lines 1637, 1644, 1663), which is never bound anywhere in this functionnor
at module level — the loop body was copied from the monthly *simple* variant
(the comment at line 1636 still reads "SIMPLE INTEREST").  Those lines run
unconditionally in every loop iteration, so the call raises `NameError` on
the first transaction and never returns a timeline; with an empty list,
`sorted_txs[0]` at line 1436 raises `IndexError`.  Either way the function
raises for every input, which the embedding returns as an error. -/
def calculate_monthly_compound_interest_data (c : Customer) :
    Except String (List Entry) :=
  match sortTxs c.transactions with
  | [] => .error "IndexError: list index out of range"
  | _ :: _ => .error "NameError: name principal_balance is not defined"

/-- `calculate_data(customer)` (`app.py` 283–315): the dispatcher.  The
`update_loan_status` call it makes mutates only the cached `status` and
`overdue_days` fields, which none of the engines read (they recompute overdue
days per transaction date), so the returned timeline does not depend on it
and the embedding leaves the side effect to `update_loan_status` itself. -/
def calculate_data (c : Customer) : Except String (List Entry) :=
  if c.transactions.isEmpty then .ok []
  else if c.interest_type == "simple" then
    if c.frequency == "monthly" then calculate_monthly_simple_interest_data c
    else if c.frequency == "quarterly" then calculate_simple_interest_data c
    else if c.frequency == "yearly" then calculate_yearly_simple_interest_data c
    else calculate_simple_interest_data c
  else
    if c.frequency == "monthly" then calculate_monthly_compound_interest_data c
    else if c.frequency == "quarterly" then calculate_compound_interest_data c
    else if c.frequency == "yearly" then calculate_yearly_compound_interest_data c
    else calculate_compound_interest_data c

/-- The result dict of `calculate_settlement_amount`. -/
structure Settlement where
  outstanding_principal : ℚ
  accrued_interest : ℚ
  penalty_amount : ℚ
  net_additional : ℚ
  total_settlement : ℚ
  deriving DecidableEq, Repr

/-- The penalty block of `calculate_settlement_amount` (`app.py` 2293–2297):
penalty on the last outstanding balance when the closure date is past the ICL
end date, over at most the additional-interest window. -/
def settlement_penalty (c : Customer) (B : ℚ) (closureDate : Date)
    (additionalDays : Int) : ℚ :=
  match c.icl_end_date with
  | some e =>
    if dateLT e closureDate then
      let od := calculate_overdue_days c closureDate
      if od > 0 then
        calculate_penalty_interest B c.penalty_rate (min od additionalDays)
      else 0
    else 0
  | none => 0

/-- `calculate_settlement_amount(customer, closure_date)` (`app.py`
2253–2310).  Note the day-count anchor: this function checks February 29 of
the *closure* year (line 2284), unlike the engines, which anchor at the
window start's year. -/
def calculate_settlement_amount (c : Customer) (closureDate : Date) :
    Except String Settlement :=
  match calculate_data c with
  | .error e => .error e
  | .ok tl =>
    match tl.getLast? with
    | none => .ok ⟨0, 0, 0, 0, 0⟩
    | some lastEntry =>
      let B := lastEntry.outstanding
      let additionalDays := daysBetween closureDate lastEntry.date
      let aiPen :=
        if additionalDays > 0 then
          let diy := pyDaysInYear closureDate.year lastEntry.date closureDate
          let ai := B * (c.interest_rate / 100) * (additionalDays : ℚ) / (diy : ℚ)
          (ai, settlement_penalty c B closureDate additionalDays)
        else ((0 : ℚ), (0 : ℚ))
      let na := (aiPen.1 + aiPen.2) * (1 - c.tds_rate / 100)
      .ok ⟨B, aiPen.1, aiPen.2, na, B + na⟩

/-! ### Specification-side definitions

Definitions written from the specification's words, to be compared with the
embedded code above. -/

/-- Spec §4.1: whether the window `[s, e]` "contains February 29 of a leap
year that actually has one in range" — any year's leap day, not just the
window start's. -/
def spec_window_contains_feb29 (s e : Date) : Bool :=
  (List.range ((e.year - s.year).toNat + 1)).any (fun k =>
    let y := s.year + (k : Int)
    is_leap y && dateLE s ⟨y, 2, 29⟩ && dateLE ⟨y, 2, 29⟩ e)

/-- Spec §4.4, overdue days as the claim states them: 0 if no `end_date`,
else `max(0, (as_of − (end_date + grace_period)).days)`. -/
def spec_overdue_days (c : Customer) (asOf : Date) : Int :=
  match c.icl_end_date with
  | none => 0
  | some e => max 0 (daysBetween asOf (addDaysNat e c.grace_period))

/-- Spec §4.4, the status update as the claim states it: terminal once
closed; `active` if `end_date` unset or `as_of ≤ end_date`; otherwise by
overdue days (0 → active, 1..90 → overdue, >90 → npa). -/
def spec_update_status (c : Customer) (asOf : Date) : String :=
  if c.status = "closed" then c.status
  else
    match c.icl_end_date with
    | none => "active"
    | some e =>
      if dateLE asOf e then "active"
      else
        let od := spec_overdue_days c asOf
        if od = 0 then "active"
        else if 1 ≤ od ∧ od ≤ 90 then "overdue"
        else "npa"

/-! ### Concrete accounts used by the claims -/

/-- A default entry, used only as the fallback of `Option.getD` on list
lookups that the surrounding theorem proves to succeed. -/
def dummyEntry : Entry :=
  { id := "", date := ⟨0, 1, 1⟩, description := "", paid := 0, received := 0
    outstanding := 0 }

/-- A structurally valid monthly compound account with one disbursement. -/
def c1acct : Customer :=
  { icl_start_date := ⟨2023, 1, 1⟩, icl_end_date := none
    interest_rate := 12, tds_rate := 10, penalty_rate := 2
    interest_type := "compound", frequency := "monthly"
    repayment_method := "exclusive", status := "active"
    grace_period := 30, overdue_days := 0
    transactions := [⟨1, ⟨2023, 1, 10⟩, "Disbursement", 100000, 0⟩] }

/-- One disbursement of 50,000 on 2023-01-05, monthly compound. -/
def c2macct : Customer :=
  { icl_start_date := ⟨2023, 1, 1⟩, icl_end_date := none
    interest_rate := 12, tds_rate := 10, penalty_rate := 2
    interest_type := "compound", frequency := "monthly"
    repayment_method := "exclusive", status := "active"
    grace_period := 30, overdue_days := 0
    transactions := [⟨1, ⟨2023, 1, 5⟩, "Disbursement", 50000, 0⟩] }

/-- The same account as `c2macct`, but quarterly. -/
def c2qacct : Customer :=
  { c2macct with frequency := "quarterly" }

/-- Monthly simple, inclusive convention: a disbursement of 100,000 on
2023-01-10 followed by a repayment of 1,000 on 2023-02-20 (the first
transaction of February), which triggers the retroactive rewrite of the
February opening row. -/
def c3acct : Customer :=
  { icl_start_date := ⟨2023, 1, 1⟩, icl_end_date := none
    interest_rate := 12, tds_rate := 10, penalty_rate := 2
    interest_type := "simple", frequency := "monthly"
    repayment_method := "inclusive", status := "active"
    grace_period := 30, overdue_days := 0
    transactions := [⟨1, ⟨2023, 1, 10⟩, "D1", 100000, 0⟩,
                     ⟨2, ⟨2023, 2, 20⟩, "R1", 0, 1000⟩] }

/-- Quarterly compound account anchored 2023-12-01: its first quarter window
runs from 2023-12-01 into 2024-02-29, crossing a leap day of the year after
the window start's. -/
def c4acct : Customer :=
  { icl_start_date := ⟨2023, 12, 1⟩, icl_end_date := none
    interest_rate := 12, tds_rate := 10, penalty_rate := 2
    interest_type := "compound", frequency := "quarterly"
    repayment_method := "exclusive", status := "active"
    grace_period := 30, overdue_days := 0
    transactions := [⟨1, ⟨2023, 12, 1⟩, "Disbursement", 100000, 0⟩] }

/-- The spec §8 scenario: start 2023-01-01, 12% rate, 10% TDS, quarterly
compound, one disbursement of 100,000 on 2023-01-01. -/
def c6acct : Customer :=
  { icl_start_date := ⟨2023, 1, 1⟩, icl_end_date := none
    interest_rate := 12, tds_rate := 10, penalty_rate := 2
    interest_type := "compound", frequency := "quarterly"
    repayment_method := "exclusive", status := "active"
    grace_period := 30, overdue_days := 0
    transactions := [⟨1, ⟨2023, 1, 1⟩, "Disbursement", 100000, 0⟩] }

/-- Quarterly compound with transactions only in Q1 2023 and Q4 2023. -/
def c7acct : Customer :=
  { icl_start_date := ⟨2023, 1, 1⟩, icl_end_date := none
    interest_rate := 12, tds_rate := 10, penalty_rate := 2
    interest_type := "compound", frequency := "quarterly"
    repayment_method := "exclusive", status := "active"
    grace_period := 30, overdue_days := 0
    transactions := [⟨1, ⟨2023, 1, 1⟩, "D1", 100000, 0⟩,
                     ⟨2, ⟨2023, 11, 15⟩, "D2", 1000, 0⟩] }

/-- Quarterly compound, one disbursement, no repayments ever; used for the
settlement-date comparisons. -/
def c9acct : Customer :=
  { icl_start_date := ⟨2023, 1, 1⟩, icl_end_date := none
    interest_rate := 12, tds_rate := 10, penalty_rate := 2
    interest_type := "compound", frequency := "quarterly"
    repayment_method := "exclusive", status := "active"
    grace_period := 30, overdue_days := 0
    transactions := [⟨1, ⟨2023, 1, 1⟩, "Disbursement", 100000, 0⟩] }

/-- The timeline computed for `c9acct`. -/
def c9tl : List Entry := (calculate_data c9acct).toOption.getD []

/-- The last timeline entry of `c9acct` (the Q1 2023 summary row). -/
def c9le : Entry := c9tl.getLast?.getD dummyEntry

/-- The settlement result of `c9acct` for closure on 2023-04-30. -/
def c9s1 : Settlement :=
  (calculate_settlement_amount c9acct ⟨2023, 4, 30⟩).toOption.getD ⟨0, 0, 0, 0, 0⟩

/-- The settlement result of `c9acct` for closure on 2023-05-31. -/
def c9s2 : Settlement :=
  (calculate_settlement_amount c9acct ⟨2023, 5, 31⟩).toOption.getD ⟨0, 0, 0, 0, 0⟩

/-- An account whose `frequency` is not one of the three documented values
and whose `interest_type` is not `simple`. -/
def c10acct : Customer :=
  { icl_start_date := ⟨2023, 1, 1⟩, icl_end_date := none
    interest_rate := 12, tds_rate := 10, penalty_rate := 2
    interest_type := "flat", frequency := "weekly"
    repayment_method := "exclusive", status := "active"
    grace_period := 30, overdue_days := 0
    transactions := [⟨1, ⟨2023, 1, 1⟩, "Disbursement", 100000, 0⟩] }

/-- The third row (index 2) of the monthly-simple timeline of `c3acct`: the
February opening row after the retroactive rewrite. -/
def c3row : Entry :=
  ((calculate_monthly_simple_interest_data c3acct).toOption.getD []).getD 2 dummyEntry

/-- The timeline computed for `c7acct`. -/
def c7tl : List Entry := (calculate_data c7acct).toOption.getD []

/-- The Q1 2023 closing balance of `c7acct`: the disbursement plus the
quarter's net interest. -/
def c7B : ℚ := 100000 + 100000 * (12 / 100) * (90 / 365) * (1 - 10 / 100)

deriving instance DecidableEq for Except

/-! ## Theorems -/

/-- **C1** (code_bug).  The claim says `calculate_data` computes an answer
and never raises for any structurally valid account; but for every account
with `interest_type = compound`, `frequency = monthly` and at least one
transaction, the dispatcher reaches
`calculate_monthly_compound_interest_data`, whose transaction loop reads the
unbound name `principal_balance` (`app.py` line 1637) and raises `NameError`.
Evaluated here on a concrete structurally-valid account. -/
theorem claim_C1_monthly_compound_raises :
    calculate_data c1acct =
      .error "NameError: name principal_balance is not defined" := by
  decide

unseal Rat.add Rat.mul Rat.sub Rat.inv in
/-- **C2** (code_bug).  The claim says `calculate_monthly_compound_interest_data`
computes each transaction row's interest on the outstanding balance exactly as
the quarterly variant does, differing only in the period windows.  In fact the
monthly compound variant's loop body was copied from the *simple* variant and
reads the unbound `principal_balance`, so on the very same single-disbursement
input on which the quarterly variant produces a transaction row whose interest
is computed from the outstanding balance (50000 × 12% × 86/365), the monthly
variant raises instead of producing any row. -/
theorem claim_C2_monthly_compound_diverges_from_quarterly :
    calculate_monthly_compound_interest_data c2macct =
      .error "NameError: name principal_balance is not defined" ∧
    ((calculate_compound_interest_data c2qacct).map
        (fun tl => tl.map (fun e => (e.id, e.outstanding, e.interest)))) =
      .ok [("1", 50000, some (50000 * (12 / 100) * 86 / 365)),
           ("summary-Q1 2023", 50000 + 50000 * (12 / 100) * (86 / 365) * (1 - 10 / 100),
            none)] := by
  constructor
  · decide
  · decide

unseal Rat.add Rat.mul Rat.sub Rat.inv in
/-- **C3** (code_bug).  The claim (spec §8 "TDS identity") says every row
carrying interest fields satisfies `tds = interest_total − net_interest`,
including an opening row rewritten by the retroactive inclusive-convention
update.  In `calculate_monthly_simple_interest_data` the rewrite stores
`tds = opening_interest − net_opening` (line 816), where `net_opening` is the
*pre-rewrite* net, while `net` is set to the recomputed `opening_net`; on the
account below the rewritten February opening row has interest 47520/73 and
net 42768/73, but tds 6480/73 ≠ 47520/73 − 42768/73. -/
theorem claim_C3_tds_identity_fails_on_rewritten_opening_row :
    c3row.id = "opening-February 2023" ∧ c3row.isOpening = true ∧
    c3row.interest = some (47520 / 73) ∧
    c3row.net = some (42768 / 73) ∧
    c3row.tds = some (6480 / 73) ∧
    (6480 / 73 : ℚ) ≠ 47520 / 73 - 42768 / 73 := by
  decide

/-- Stepping one day back from the first of a month and one day forward
again is the identity (used for the period-tiling claim). -/
theorem addOneDay_subOneDay_firstOfMonth (y m : Int) (h1 : 1 ≤ m) (h2 : m ≤ 12) :
    addOneDay (subOneDay ⟨y, m, 1⟩) = ⟨y, m, 1⟩ := by
  interval_cases m <;> simp [subOneDay, addOneDay, daysInMonth]

/-- For day-1 anchors, the `add_missing_quarters` walk from a quarter starts
exactly one day after that quarter's end date. -/
theorem quarter_next_eq_end_succ (anchor d : Date)
    (hday : anchor.day = 1) (hm1 : 1 ≤ anchor.month) (hm2 : anchor.month ≤ 12) :
    nextQuarterStartDate (get_quarter_info d anchor) anchor.day =
      addOneDay (get_quarter_info d anchor).endDate := by
  simp only [get_quarter_info, nextQuarterStartDate]
  rw [hday]
  split_ifs with h1
  · rw [addOneDay_subOneDay_firstOfMonth _ _ (by omega) (by omega)]
  · rw [addOneDay_subOneDay_firstOfMonth _ _ (by omega) (by omega)]

/-- The quarter resolver maps the walked-to start date to a quarter that
begins exactly there (day-1 anchors). -/
theorem quarter_start_idem (anchor d : Date)
    (hday : anchor.day = 1) (hm1 : 1 ≤ anchor.month) (hm2 : anchor.month ≤ 12) :
    (get_quarter_info (nextQuarterStartDate (get_quarter_info d anchor)
        anchor.day) anchor).startDate =
      nextQuarterStartDate (get_quarter_info d anchor) anchor.day := by
  simp only [get_quarter_info, nextQuarterStartDate]
  split_ifs with h1 <;> simp only [Date.mk.injEq] <;>
    exact ⟨by omega, by omega, trivial⟩

/-- For day-1 anchors, the `add_missing_months` walk from a month starts
exactly one day after that month's end date (including the December
special case). -/
theorem month_next_eq_end_succ (anchor d : Date)
    (hday : anchor.day = 1) (hd1 : 1 ≤ d.month) (hd2 : d.month ≤ 12) :
    nextMonthStartDate (get_month_info d anchor) anchor.day =
      addOneDay (get_month_info d anchor).endDate := by
  by_cases hm : d.month = 12
  · simp only [get_month_info, nextMonthStartDate, beq_iff_eq, hm, hday]
    norm_num
    simp [addOneDay, daysInMonth]
  · simp only [get_month_info, nextMonthStartDate, beq_iff_eq, hm, hday, if_false]
    rw [if_neg (by omega)]
    rw [addOneDay_subOneDay_firstOfMonth _ _ (by omega) (by omega)]

/-- The month resolver maps the walked-to start date to a month window that
begins exactly there. -/
theorem month_start_idem (anchor d : Date)
    (hday : anchor.day = 1) (hd1 : 1 ≤ d.month) (hd2 : d.month ≤ 12) :
    (get_month_info (nextMonthStartDate (get_month_info d anchor) anchor.day)
        anchor).startDate =
      nextMonthStartDate (get_month_info d anchor) anchor.day := by
  simp only [get_month_info, nextMonthStartDate]
  split_ifs with h1 <;> simp [Date.mk.injEq, hday]

/-- **C5** counterexample.  The claim asserts gap-free tiling for *every*
anchor day-of-month.  With the anchor 2023-01-15 the quarter containing
2023-02-01 ends on 2023-03-31, but the next-quarter walk starts on
2023-04-15 — a 14-day gap (the quarter end is always computed from the first
of a month regardless of the anchor day); the month resolver has the same
gap after its December special case. -/
theorem claim_C5_counterexample_mid_month_anchor :
    (get_quarter_info ⟨2023, 2, 1⟩ ⟨2023, 1, 15⟩).endDate = ⟨2023, 3, 31⟩ ∧
    nextQuarterStartDate (get_quarter_info ⟨2023, 2, 1⟩ ⟨2023, 1, 15⟩) 15 =
      ⟨2023, 4, 15⟩ ∧
    addOneDay ⟨2023, 3, 31⟩ = ⟨2023, 4, 1⟩ ∧
    nextQuarterStartDate (get_quarter_info ⟨2023, 2, 1⟩ ⟨2023, 1, 15⟩) 15 ≠
      addOneDay (get_quarter_info ⟨2023, 2, 1⟩ ⟨2023, 1, 15⟩).endDate ∧
    nextMonthStartDate (get_month_info ⟨2023, 12, 20⟩ ⟨2023, 1, 15⟩) 15 ≠
      addOneDay (get_month_info ⟨2023, 12, 20⟩ ⟨2023, 1, 15⟩).endDate := by
  decide

/-- **C5** amended.  For anchors on the first of a month (day-of-month 1) the
quarter and month resolvers do tile the timeline: the next period reached by
the engines' walk starts exactly one day after the current period's end, and
the resolver maps that start date to a period beginning exactly there. -/
theorem claim_C5_amended_day_one_anchors_tile (anchor d : Date)
    (hday : anchor.day = 1) (hm1 : 1 ≤ anchor.month) (hm2 : anchor.month ≤ 12)
    (hd1 : 1 ≤ d.month) (hd2 : d.month ≤ 12) :
    (nextQuarterStartDate (get_quarter_info d anchor) anchor.day =
        addOneDay (get_quarter_info d anchor).endDate ∧
      (get_quarter_info (nextQuarterStartDate (get_quarter_info d anchor)
          anchor.day) anchor).startDate =
        nextQuarterStartDate (get_quarter_info d anchor) anchor.day) ∧
    (nextMonthStartDate (get_month_info d anchor) anchor.day =
        addOneDay (get_month_info d anchor).endDate ∧
      (get_month_info (nextMonthStartDate (get_month_info d anchor) anchor.day)
          anchor).startDate =
        nextMonthStartDate (get_month_info d anchor) anchor.day) :=
  ⟨⟨quarter_next_eq_end_succ anchor d hday hm1 hm2,
    quarter_start_idem anchor d hday hm1 hm2⟩,
   ⟨month_next_eq_end_succ anchor d hday hd1 hd2,
    month_start_idem anchor d hday hd1 hd2⟩⟩

/-- Witness for the amended **C5**: the day-1 anchor 2023-01-01 and the date
2023-05-20. -/
theorem claim_C5_amended_day_one_anchors_tile_witness :
    (nextQuarterStartDate (get_quarter_info ⟨2023, 5, 20⟩ ⟨2023, 1, 1⟩) 1 =
        addOneDay (get_quarter_info ⟨2023, 5, 20⟩ ⟨2023, 1, 1⟩).endDate ∧
      (get_quarter_info (nextQuarterStartDate
          (get_quarter_info ⟨2023, 5, 20⟩ ⟨2023, 1, 1⟩) 1) ⟨2023, 1, 1⟩).startDate =
        nextQuarterStartDate (get_quarter_info ⟨2023, 5, 20⟩ ⟨2023, 1, 1⟩) 1) ∧
    (nextMonthStartDate (get_month_info ⟨2023, 5, 20⟩ ⟨2023, 1, 1⟩) 1 =
        addOneDay (get_month_info ⟨2023, 5, 20⟩ ⟨2023, 1, 1⟩).endDate ∧
      (get_month_info (nextMonthStartDate
          (get_month_info ⟨2023, 5, 20⟩ ⟨2023, 1, 1⟩) 1) ⟨2023, 1, 1⟩).startDate =
        nextMonthStartDate (get_month_info ⟨2023, 5, 20⟩ ⟨2023, 1, 1⟩) 1) :=
  claim_C5_amended_day_one_anchors_tile ⟨2023, 1, 1⟩ ⟨2023, 5, 20⟩ rfl
    (by decide) (by decide) (by decide) (by decide)

unseal Rat.add Rat.mul Rat.sub Rat.inv in
/-- **C4** counterexample.  The claim says every engine window's annual
denominator is 366 iff the window contains an existing February 29 —
"including windows that start in one year and run into February 29 of the
following leap year".  On the account anchored 2023-12-01 the first quarter's
transaction window runs 91 days from 2023-12-01 across 2024-02-29 (the spec
predicate `spec_window_contains_feb29` holds), yet the engine computes the
row's interest over 365, because the code only checks February 29 of the
window start's year (2023, not leap). -/
theorem claim_C4_counterexample_cross_year_leap_day :
    spec_window_contains_feb29 ⟨2023, 12, 1⟩ (addDays ⟨2023, 12, 1⟩ 91) = true ∧
    (calculate_data c4acct).map (fun tl => tl.map (fun e => (e.id, e.days, e.interest))) =
      .ok [("1", some 91, some (100000 * (12 / 100) * 91 / 365)),
           ("summary-Q1 2023", none, none)] := by
  constructor
  · decide
  · decide

/-- **C4** amended.  The engine's day-count denominator (every engine site
instantiates `pyDaysInYear` with the window start's year) is 366 iff the
window's *start year* is a leap year and that year's February 29 lies in the
window; a window that merely runs into February 29 of a later year keeps
365. -/
theorem claim_C4_amended_start_year_anchor (s e : Date) :
    (pyDaysInYear s.year s e = 366 ↔
      is_leap s.year = true ∧ dateLE s ⟨s.year, 2, 29⟩ = true ∧
        dateLE ⟨s.year, 2, 29⟩ e = true) ∧
    (pyDaysInYear s.year s e = 365 ∨ pyDaysInYear s.year s e = 366) := by
  unfold pyDaysInYear
  rcases h : is_leap s.year with _ | _
  · simp [h]
  · rcases h1 : dateLE s ⟨s.year, 2, 29⟩ with _ | _ <;>
      rcases h2 : dateLE ⟨s.year, 2, 29⟩ e with _ | _ <;>
      simp [h, h1, h2]

unseal Rat.add Rat.mul Rat.sub Rat.inv in
/-- **C6** (confirmed).  The spec §8 scenario: quarterly compound, start
2023-01-01, one disbursement of 100,000 the same day.  The Q1 2023 window is
Jan 1 – Mar 31, the transaction row accrues 90 days over 365, gross interest
is `100000 × 12% × 90/365`, net is 90% of that, and the closing summary's
outstanding is 100,000 plus the net interest. -/
theorem claim_C6_spec_scenario :
    get_quarter_info ⟨2023, 1, 1⟩ c6acct.icl_start_date =
      ⟨"Q1 2023", ⟨2023, 1, 1⟩, ⟨2023, 3, 31⟩⟩ ∧
    calculate_data c6acct = .ok
      [{ id := "1", date := ⟨2023, 1, 1⟩, description := "Disbursement"
         paid := 100000, received := 0
         days := some 90
         interest := some (100000 * (12 / 100) * 90 / 365)
         penalty_interest := some 0
         total_interest := some (100000 * (12 / 100) * 90 / 365)
         tds := some (100000 * (12 / 100) * 90 / 365 -
                      100000 * (12 / 100) * 90 / 365 * (1 - 10 / 100))
         net := some (100000 * (12 / 100) * 90 / 365 * (1 - 10 / 100))
         outstanding := 100000 },
       { id := "summary-Q1 2023", date := ⟨2023, 3, 31⟩
         description := "Q1 2023 Net Interest"
         paid := 100000 * (12 / 100) * 90 / 365 * (1 - 10 / 100)
         received := 0, isSummary := true
         outstanding := 100000 + 100000 * (12 / 100) * 90 / 365 * (1 - 10 / 100) }] := by
  constructor
  · decide
  · decide

unseal Rat.add Rat.mul Rat.sub Rat.inv in
/-- **C7** (confirmed, on the spec's scenario).  With transactions only in
Q1 2023 and Q4 2023 (quarterly compound), the timeline contains exactly the
missing-period fillers for Q2 2023 and Q3 2023; the compounding chain starts
at the Q1-closing balance `c7B`: Q2's filler accrues on `c7B` and Q3's on
`c7B` plus Q2's capitalised net. -/
theorem claim_C7_gap_filling :
    (c7tl.filter (fun e => e.isMissing)).map (fun e => e.id) =
      ["missing-Q2 2023", "missing-Q3 2023"] ∧
    (c7tl.getD 1 dummyEntry).id = "summary-Q1 2023" ∧
    (c7tl.getD 1 dummyEntry).outstanding = c7B ∧
    (c7tl.getD 2 dummyEntry).isMissing = true ∧
    (c7tl.getD 2 dummyEntry).date = ⟨2023, 6, 30⟩ ∧
    (c7tl.getD 2 dummyEntry).interest = some (c7B * (12 / 100) * (91 / 365)) ∧
    (c7tl.getD 2 dummyEntry).outstanding =
      c7B + c7B * (12 / 100) * (91 / 365) * (1 - 10 / 100) ∧
    (c7tl.getD 3 dummyEntry).isMissing = true ∧
    (c7tl.getD 3 dummyEntry).date = ⟨2023, 9, 30⟩ ∧
    (c7tl.getD 3 dummyEntry).interest =
      some ((c7B + c7B * (12 / 100) * (91 / 365) * (1 - 10 / 100)) *
        (12 / 100) * (92 / 365)) := by
  refine ⟨by decide, by decide, by decide, by decide, by decide, by decide,
    by decide, by decide, by decide, by decide⟩

unseal Rat.add Rat.mul Rat.sub Rat.inv in
/-- **C9** counterexample.  The claim says the total settlement is monotone
in the closure date when no repayments intervene.  On `c9acct` (no
repayments at all; last timeline entry dated 2023-03-31) the closure date
2028-02-29 yields a *smaller* total than 2028-02-28: the one-day-later window
switches the annual denominator from 365 to 366 (the closure year's leap day
enters the window), and 1795/365 > 1796/366. -/
theorem claim_C9_counterexample_leap_denominator :
    dateLT ⟨2028, 2, 28⟩ ⟨2028, 2, 29⟩ = true ∧
    (calculate_settlement_amount c9acct ⟨2028, 2, 28⟩).map
        Settlement.total_settlement = .ok (4188320384 / 26645) ∧
    (calculate_settlement_amount c9acct ⟨2028, 2, 29⟩).map
        Settlement.total_settlement = .ok (3497186816 / 22265) ∧
    ((3497186816 : ℚ) / 22265 < 4188320384 / 26645) := by
  refine ⟨by decide, by decide, by decide, by decide⟩

/-- The day-count denominator is always positive (365 or 366). -/
theorem pyDaysInYear_pos (y : Int) (s e : Date) : 0 < pyDaysInYear y s e := by
  unfold pyDaysInYear
  dsimp only
  split_ifs <;> norm_num

/-- Overdue days are never negative. -/
theorem overdue_days_nonneg (c : Customer) (d : Date) :
    0 ≤ calculate_overdue_days c d := by
  unfold calculate_overdue_days
  cases c.icl_end_date with
  | none => simp
  | some e =>
    simp only [dateLT, daysBetween, decide_eq_true_eq]
    split_ifs with h <;> omega

/-- Overdue days are monotone in the as-of date. -/
theorem overdue_days_mono (c : Customer) (d1 d2 : Date)
    (h : d1.toOrdinal ≤ d2.toOrdinal) :
    calculate_overdue_days c d1 ≤ calculate_overdue_days c d2 := by
  unfold calculate_overdue_days
  cases c.icl_end_date with
  | none => simp
  | some e =>
    simp only [dateLT, daysBetween, decide_eq_true_eq]
    split_ifs with h1 h2 <;> omega

/-- Penalty interest is nonnegative for nonnegative balance and rate. -/
theorem penalty_nonneg (B p : ℚ) (m : Int) (hB : 0 ≤ B) (hp : 0 ≤ p) :
    0 ≤ calculate_penalty_interest B p m := by
  unfold calculate_penalty_interest
  split_ifs with h
  · exact le_refl 0
  · have hm : (0:ℚ) ≤ (m:ℚ) := by exact_mod_cast (by omega : (0:Int) ≤ m)
    positivity

/-- Penalty interest is monotone in the day count. -/
theorem penalty_mono (B p : ℚ) (m1 m2 : Int) (hB : 0 ≤ B) (hp : 0 ≤ p)
    (hm : m1 ≤ m2) :
    calculate_penalty_interest B p m1 ≤ calculate_penalty_interest B p m2 := by
  unfold calculate_penalty_interest
  split_ifs with h1 h2 h2
  · exact le_refl 0
  · have hm2 : (0:ℚ) ≤ (m2:ℚ) := by exact_mod_cast (by omega : (0:Int) ≤ m2)
    positivity
  · omega
  · have hc : (m1:ℚ) ≤ (m2:ℚ) := by exact_mod_cast hm
    have hco : 0 ≤ B * (p / 100 / 365) := by positivity
    nlinarith

/-- The settlement penalty term is nonnegative. -/
theorem settlement_penalty_nonneg (c : Customer) (B : ℚ) (d : Date) (a : Int)
    (hB : 0 ≤ B) (hp : 0 ≤ c.penalty_rate) :
    0 ≤ settlement_penalty c B d a := by
  unfold settlement_penalty
  cases c.icl_end_date with
  | none => exact le_refl 0
  | some e =>
    dsimp only
    split_ifs with h1 h2
    · exact penalty_nonneg _ _ _ hB hp
    · exact le_refl 0
    · exact le_refl 0

/-- The settlement penalty term is monotone in the closure date and window
length. -/
theorem settlement_penalty_mono (c : Customer) (B : ℚ) (d1 d2 : Date)
    (a1 a2 : Int) (hB : 0 ≤ B) (hp : 0 ≤ c.penalty_rate)
    (hd : d1.toOrdinal ≤ d2.toOrdinal) (ha : a1 ≤ a2) :
    settlement_penalty c B d1 a1 ≤ settlement_penalty c B d2 a2 := by
  have hmono := overdue_days_mono c d1 d2 hd
  unfold settlement_penalty
  cases c.icl_end_date with
  | none => exact le_refl 0
  | some e =>
    dsimp only
    simp only [dateLT, decide_eq_true_eq]
    split_ifs <;>
      first
        | exact penalty_mono _ _ _ _ hB hp (by omega)
        | exact penalty_nonneg _ _ _ hB hp
        | omega
        | norm_num

/-- Monotonicity of the settlement total in the additional-interest window,
for a fixed annual denominator. -/
theorem settle_total_mono (B r t : ℚ) (D a1 a2 : Int) (pen1 pen2 : ℚ)
    (hB : 0 ≤ B) (hr : 0 ≤ r) (ht0 : 0 ≤ t) (ht1 : t ≤ 100) (hD : 0 < D)
    (ha : a1 ≤ a2)
    (hpen1 : 0 ≤ pen1) (hpen2 : 0 ≤ pen2) (hpen12 : pen1 ≤ pen2) :
    B + ((if a1 > 0 then (B * (r / 100) * (a1 : ℚ) / (D : ℚ), pen1) else (0, 0)).1 +
         (if a1 > 0 then (B * (r / 100) * (a1 : ℚ) / (D : ℚ), pen1) else (0, 0)).2) *
        (1 - t / 100) ≤
    B + ((if a2 > 0 then (B * (r / 100) * (a2 : ℚ) / (D : ℚ), pen2) else (0, 0)).1 +
         (if a2 > 0 then (B * (r / 100) * (a2 : ℚ) / (D : ℚ), pen2) else (0, 0)).2) *
        (1 - t / 100) := by
  have hk : (0 : ℚ) ≤ 1 - t / 100 := by linarith
  have hDq : (0 : ℚ) < (D : ℚ) := by exact_mod_cast hD
  split_ifs with h1 h2 h2
  · simp only
    have haq : ((a1 : ℚ)) ≤ (a2 : ℚ) := by exact_mod_cast ha
    have hBr : (0 : ℚ) ≤ B * (r / 100) := by positivity
    have hnum : B * (r / 100) * (a1 : ℚ) ≤ B * (r / 100) * (a2 : ℚ) :=
      mul_le_mul_of_nonneg_left haq hBr
    have hai : B * (r / 100) * (a1 : ℚ) / (D : ℚ) ≤
        B * (r / 100) * (a2 : ℚ) / (D : ℚ) :=
      (div_le_div_iff_of_pos_right hDq).mpr hnum
    have hsum := add_le_add hai hpen12
    nlinarith
  · omega
  · simp only
    have ha2q : (0 : ℚ) ≤ (a2 : ℚ) := by exact_mod_cast (by omega : (0:Int) ≤ a2)
    have hq : (0:ℚ) ≤ (B * (r / 100) * (a2 : ℚ) / (D : ℚ) + pen2) * (1 - t / 100) := by
      have : (0:ℚ) ≤ B * (r / 100) * (a2 : ℚ) / (D : ℚ) := by positivity
      nlinarith
    nlinarith
  · exact le_refl _

/-- **C9** amended.  Settlement monotonicity holds with the extra conditions
the counterexample forces: both closure windows from the last timeline entry
must use the same annual denominator (plus the natural sign conditions: a
nonnegative last outstanding balance and rates, TDS at most 100%).  Under
those hypotheses, a later closure date never yields a smaller total
settlement. -/
theorem claim_C9_amended_settlement_monotone (c : Customer) (tl : List Entry)
    (le : Entry) (d1 d2 : Date) (s1 s2 : Settlement)
    (htl : calculate_data c = .ok tl)
    (hlast : tl.getLast? = some le)
    (hB : 0 ≤ le.outstanding)
    (hr : 0 ≤ c.interest_rate)
    (hp : 0 ≤ c.penalty_rate)
    (ht0 : 0 ≤ c.tds_rate) (ht1 : c.tds_rate ≤ 100)
    (hd : d1.toOrdinal ≤ d2.toOrdinal)
    (hdiy : pyDaysInYear d1.year le.date d1 = pyDaysInYear d2.year le.date d2)
    (h1 : calculate_settlement_amount c d1 = .ok s1)
    (h2 : calculate_settlement_amount c d2 = .ok s2) :
    s1.total_settlement ≤ s2.total_settlement := by
  unfold calculate_settlement_amount at h1 h2
  rw [htl] at h1 h2
  dsimp only at h1 h2
  rw [hlast] at h1 h2
  dsimp only at h1 h2
  simp only [Except.ok.injEq] at h1 h2
  subst h1; subst h2
  dsimp only
  rw [hdiy]
  exact settle_total_mono le.outstanding c.interest_rate c.tds_rate
    (pyDaysInYear d2.year le.date d2) (daysBetween d1 le.date)
    (daysBetween d2 le.date)
    (settlement_penalty c le.outstanding d1 (daysBetween d1 le.date))
    (settlement_penalty c le.outstanding d2 (daysBetween d2 le.date))
    hB hr ht0 ht1 (pyDaysInYear_pos _ _ _) (by unfold daysBetween; omega)
    (settlement_penalty_nonneg c _ d1 _ hB hp)
    (settlement_penalty_nonneg c _ d2 _ hB hp)
    (settlement_penalty_mono c _ d1 d2 _ _ hB hp hd (by unfold daysBetween; omega))

unseal Rat.add Rat.mul Rat.sub Rat.inv in
/-- Witness for the amended **C9**: for `c9acct`, closing on 2023-05-31
settles for at least as much as closing on 2023-04-30 (both windows use a
365 denominator). -/
theorem claim_C9_amended_settlement_monotone_witness :
    c9s1.total_settlement ≤ c9s2.total_settlement :=
  claim_C9_amended_settlement_monotone c9acct c9tl c9le
    ⟨2023, 4, 30⟩ ⟨2023, 5, 31⟩ c9s1 c9s2
    (by decide) (by decide) (by decide) (by decide) (by decide)
    (by decide) (by decide) (by decide) (by decide) (by decide) (by decide)

/-- The overdue-day computation agrees with the spec's
`max(0, (as_of − (end_date + grace)).days)` formulation. -/
theorem overdue_days_eq_spec (c : Customer) (asOf : Date) :
    calculate_overdue_days c asOf = spec_overdue_days c asOf := by
  unfold calculate_overdue_days spec_overdue_days
  cases c.icl_end_date with
  | none => rfl
  | some e =>
    simp only [dateLT, daysBetween, decide_eq_true_eq]
    split_ifs with h <;> omega

/-- **C8** (confirmed).  `update_loan_status` behaves exactly as the claim
describes: the computed overdue days (`spec_overdue_days`) are written back
unconditionally, and the resulting status is the claim's case analysis
(`spec_update_status`): unchanged when closed, `active` when `end_date` is
unset or not yet passed, otherwise `active`/`overdue`/`npa` by the overdue
days being 0, 1..90, or more than 90. -/
theorem claim_C8_status_update (c : Customer) (asOf : Date) :
    update_loan_status c asOf =
      ({ c with status := spec_update_status c asOf
              , overdue_days := spec_overdue_days c asOf },
       spec_update_status c asOf) := by
  have hnn : 0 ≤ spec_overdue_days c asOf := by
    unfold spec_overdue_days
    cases hh : c.icl_end_date <;> simp [hh]
  unfold update_loan_status spec_update_status
  rw [overdue_days_eq_spec]
  by_cases hcl : c.status = "closed"
  · simp [hcl]
  · simp only [beq_iff_eq, hcl, if_false]
    cases hend : c.icl_end_date with
    | none => simp [hend]
    | some e =>
      simp only [hend, Option.isNone_some]
      by_cases hle : dateLE asOf e = true
      · simp [hle]
      · simp only [hle, if_false, Bool.false_eq_true]
        by_cases h0 : spec_overdue_days c asOf = 0
        · simp [h0]
        · by_cases h90 : spec_overdue_days c asOf ≤ 90
          · simp only [beq_iff_eq, h0, if_false]
            rw [if_pos h90, if_pos ⟨by omega, h90⟩]
          · simp only [beq_iff_eq, h0, if_false]
            rw [if_neg h90, if_neg (by omega)]

/-- **C10** (confirmed).  The dispatcher never rejects an unrecognised
setting: any frequency outside {monthly, quarterly, yearly} falls back to the
quarterly variant of the selected interest type, and any interest type other
than `simple` (recognised or not) is dispatched to the compound family. -/
theorem claim_C10_dispatcher_fallback :
    (∀ c : Customer, c.frequency ≠ "monthly" → c.frequency ≠ "quarterly" →
      c.frequency ≠ "yearly" →
      calculate_data c =
        (if c.transactions.isEmpty then .ok []
         else if c.interest_type = "simple" then calculate_simple_interest_data c
         else calculate_compound_interest_data c)) ∧
    (∀ c : Customer, c.interest_type ≠ "simple" →
      calculate_data c =
        (if c.transactions.isEmpty then .ok []
         else if c.frequency = "monthly" then
           calculate_monthly_compound_interest_data c
         else if c.frequency = "quarterly" then
           calculate_compound_interest_data c
         else if c.frequency = "yearly" then
           calculate_yearly_compound_interest_data c
         else calculate_compound_interest_data c)) := by
  constructor
  · intro c h1 h2 h3
    unfold calculate_data
    simp only [beq_iff_eq, h1, h2, h3, if_false]
  · intro c h
    unfold calculate_data
    simp only [beq_iff_eq, h, if_false]

/-- Witness for **C10**: a concrete account with frequency `weekly` and
interest type `flat` is dispatched to the quarterly compound engine. -/
theorem claim_C10_dispatcher_fallback_witness :
    calculate_data c10acct =
      (if c10acct.transactions.isEmpty then .ok []
       else if c10acct.interest_type = "simple" then
         calculate_simple_interest_data c10acct
       else calculate_compound_interest_data c10acct) :=
  claim_C10_dispatcher_fallback.1 c10acct (by decide) (by decide) (by decide)

end ICL
